import Mathlib

/-!
Shallow embedding of the AG-UI LangGraph research agent's event-streaming
layer (src/agui/main.py) and of the research workflow node
(src/agui/langgraph/research.py), together with proofs about the protocol
event sequences the streaming endpoint produces.

Modelling conventions:
* The AG-UI protocol events (`RunStartedEvent`, `RunFinishedEvent`,
  `TextMessageStartEvent`, `TextMessageContentEvent`, `TextMessageEndEvent`,
  plus the state snapshot chunks produced through the `event_emitter`
  callback) are the constructors of the inductive type `Event`.
* The `EventEncoder` of the `ag_ui` library serializes each event into a
  self-delimited SSE frame; the encoding is injective and external to this
  repository, so a yielded chunk is identified with the event it encodes.
* `graph.invoke` (built by `build_research_graph`, whose module is not part
  of the sources) is an opaque collaborator: a run of it is described by the
  snapshot chunks it pushes through the state's `event_emitter` while
  executing and by its result, a list of AI messages or a raised error.
* Machine-level concerns (uuid generation, printing, HTTP) are irrelevant to
  the claims; `message_id` is a parameter fixed once per run.
-/

/-- A conversation message of the inbound request (`RunAgentInput.messages`):
a role and a text content. -/
structure Message where
  role : String
  content : String
deriving DecidableEq, Repr

/-- The inbound request `RunAgentInput`: identity tokens and the ordered
message list. -/
structure RunAgentInput where
  thread_id : String
  run_id : String
  messages : List Message
deriving DecidableEq, Repr

/-- A LangChain `AIMessage`: only its `content` field is consumed by the
streaming layer (main.py line 109). -/
structure AIMessage where
  content : String
deriving DecidableEq, Repr

/-- The protocol events yielded on the stream. `StateSnapshot` models the
already-encoded chunks appended through the `event_emitter` callback: a
snapshot of the research state (its `message_id`, `query`, progress flag and
any workflow-contributed fields, the latter kept opaque as a string). -/
inductive Event where
  | RunStarted (thread_id run_id : String)
  | RunFinished (thread_id run_id : String)
  | TextMessageStart (message_id role : String)
  | TextMessageContent (message_id delta : String)
  | TextMessageEnd (message_id : String)
  | StateSnapshot (message_id query : String) (in_progress : Bool) (fields : String)
deriving DecidableEq, Repr

namespace Event

/-- Recognizer for run-start events, regardless of their identity tokens. -/
def isRunStarted : Event → Bool
  | .RunStarted _ _ => true
  | _ => false

/-- Recognizer for run-finish events, regardless of their identity tokens. -/
def isRunFinished : Event → Bool
  | .RunFinished _ _ => true
  | _ => false

/-- Recognizer for state snapshot chunks. -/
def isStateSnapshot : Event → Bool
  | .StateSnapshot _ _ _ _ => true
  | _ => false

/-- Recognizer for `TextMessageStart` events carrying the given message id. -/
def isTMStartOf (mid : String) : Event → Bool
  | .TextMessageStart m _ => m == mid
  | _ => false

/-- Recognizer for `TextMessageContent` events carrying the given message id. -/
def isTMContentOf (mid : String) : Event → Bool
  | .TextMessageContent m _ => m == mid
  | _ => false

/-- Recognizer for `TextMessageEnd` events carrying the given message id. -/
def isTMEndOf (mid : String) : Event → Bool
  | .TextMessageEnd m => m == mid
  | _ => false

/-- Recognizer for `TextMessageContent` events of any message id. -/
def isTMContent : Event → Bool
  | .TextMessageContent _ _ => true
  | _ => false

end Event

/-- Modelled from the spec: `ResearchState.emit_snapshot` lives in
src/agui/langgraph/state.py, which is not among the sources. Per spec §4.3 it
encodes the current observable state (identity, query, progress flag,
workflow-contributed fields) as one `StateSnapshot` chunk and appends it to
the sink via the `event_emitter` callback — exactly one append per call. At
the orchestrator's initial call (main.py line 81) the run has just been
created, so the progress flag is still unset and no workflow fields exist. -/
def emit_snapshot (message_id query : String) (in_progress : Bool)
    (fields : String) : Event :=
  Event.StateSnapshot message_id query in_progress fields

/-- One run of the opaque workflow `graph.invoke` (main.py line 94) on a
given query: `snapshots` are the state snapshots it emits through the state's
`event_emitter` while executing, in append order (modelled from the spec:
state.py's emitters, the only append path available to the workflow, append
only `StateSnapshot` chunks — each recorded here by its progress flag and
workflow fields); `result` is the returned list of AI messages, or the error
it raises. -/
structure WorkflowRun where
  snapshots : List (Bool × String)
  result : Except String (List AIMessage)

/-- How a run of `event_generator` can terminate abnormally: an uncaught
exception escaping the generator, ending the stream without further events. -/
inductive GenError where
  | indexErrorMessages
  | workflowRaised (e : String)
  | indexErrorResult
deriving DecidableEq, Repr

/-- The body of `event_generator` (main.py lines 55-143) after the query has
been extracted: yield `RunStarted`; call `emit_snapshot` on the freshly
created research state and drain the collected events (one snapshot); invoke
the workflow; if it raises, the exception escapes and the stream ends here;
otherwise drain the events the workflow emitted, index `result[0]` (an
IndexError again ends the stream), and yield `TextMessageStart`, one
`TextMessageContent` carrying the report content, `TextMessageEnd`, and
`RunFinished`. Returns the yielded chunks and the escaping error, if any. -/
def event_generator_go (input : RunAgentInput) (message_id query : String)
    (run : WorkflowRun) : List Event × Option GenError :=
  let started := Event.RunStarted input.thread_id input.run_id
  let snap := emit_snapshot message_id query false ""
  match run.result with
  | Except.error e => ([started, snap], some (GenError.workflowRaised e))
  | Except.ok result =>
    let wfEvents := run.snapshots.map
      (fun s => Event.StateSnapshot message_id query s.1 s.2)
    match result.head? with
    | none => ([started, snap] ++ wfEvents, some GenError.indexErrorResult)
    | some report_item =>
      ([started, snap] ++ wfEvents ++
        [Event.TextMessageStart message_id "assistant",
         Event.TextMessageContent message_id report_item.content,
         Event.TextMessageEnd message_id,
         Event.RunFinished input.thread_id input.run_id], none)

/-- The asynchronous generator of main.py lines 44-143. It first evaluates
`input_data.messages[-1].content` (line 52): on an empty message list this
raises IndexError before the first yield, so nothing at all is streamed.
Otherwise the query is the content of the last message, and the rest of the
body runs with the workflow invoked on that query. -/
def event_generator (input : RunAgentInput) (message_id : String)
    (wf : String → WorkflowRun) : List Event × Option GenError :=
  match input.messages.getLast? with
  | none => ([], some GenError.indexErrorMessages)
  | some last => event_generator_go input message_id last.content (wf last.content)

/-- The event sink of main.py: the `emitted_events` list (line 67) together
with the `event_emitter` callback that appends to it (lines 69-71). The
buffer holds the chunks appended since the last drain. -/
structure EventSink where
  buffer : List Event
deriving DecidableEq, Repr

namespace EventSink

/-- `event_emitter(encoded_event)` (main.py line 71): append one chunk at the
tail of `emitted_events`. -/
def append (s : EventSink) (c : Event) : EventSink :=
  ⟨s.buffer ++ [c]⟩

/-- A full drain of the sink, as performed by the orchestrator at its two
checkpoints (main.py lines 84-86 and 96-99): yield every buffered chunk in
order, then `emitted_events.clear()`. Returns the yielded chunks and the
emptied sink. -/
def drainAll (s : EventSink) : List Event × EventSink :=
  (s.buffer, ⟨[]⟩)

end EventSink

/-!
Interleaving model of the sink for the concurrency contract (spec §4.2, §5).
A drain in the source is not one atomic action: it is a read phase (the
`for event in emitted_events: yield event` loop, lines 84-85 / 97-98, which
yields the chunks buffered at that moment) followed by a separate clear phase
(`emitted_events.clear()`, line 86 / 99). If the workflow runs on another
scheduling context, an `append` can interleave between the two phases. The
operations below are the atomic micro-steps; a schedule is a list of them.
-/

/-- A micro-step on the shared sink: an append by the workflow side, or one
of the two phases of a drain by the orchestrator. -/
inductive SinkOp where
  | append (c : Event)
  | drainRead
  | drainClear
deriving DecidableEq, Repr

/-- The shared state: the `emitted_events` buffer and the chunks flushed to
the output stream so far. -/
structure SinkState where
  buffer : List Event
  flushed : List Event
deriving DecidableEq, Repr

/-- Effect of one micro-step: an append extends the buffer; the read phase
yields (flushes) every chunk currently buffered without removing them; the
clear phase empties the buffer. -/
def sinkStep (s : SinkState) : SinkOp → SinkState
  | SinkOp.append c => ⟨s.buffer ++ [c], s.flushed⟩
  | SinkOp.drainRead => ⟨s.buffer, s.flushed ++ s.buffer⟩
  | SinkOp.drainClear => ⟨[], s.flushed⟩

/-- Run a schedule of micro-steps from an empty sink and empty output. -/
def sinkRun (ops : List SinkOp) : SinkState :=
  ops.foldl sinkStep ⟨[], []⟩

/-- A sink operation at the granularity the spec demands: drains as atomic
snapshot-and-clear actions, so no append can interleave inside a drain. -/
inductive AtomicOp where
  | append (c : Event)
  | drain
deriving DecidableEq, Repr

/-- Effect of an atomic operation: a drain flushes the whole buffer and
empties it in one step. -/
def atomicStep (s : SinkState) : AtomicOp → SinkState
  | AtomicOp.append c => ⟨s.buffer ++ [c], s.flushed⟩
  | AtomicOp.drain => ⟨[], s.flushed ++ s.buffer⟩

/-- Run a schedule of atomic operations from an empty sink and empty output. -/
def atomicRun (ops : List AtomicOp) : SinkState :=
  ops.foldl atomicStep ⟨[], []⟩

/-- The chunks appended by a schedule of atomic operations, in order. -/
def appendsOf : List AtomicOp → List Event
  | [] => []
  | AtomicOp.append c :: ops => c :: appendsOf ops
  | AtomicOp.drain :: ops => appendsOf ops

/-!
The research workflow node (src/agui/langgraph/research.py). Its two
collaborators, `web_search` (web_search.py) and `create_detailed_report`
(report.py), are not among the sources; they are opaque functions that take
the optional research state and return their result together with the list of
state operations they performed on it.
-/

/-- An operation performed on a `ResearchState`: setting the progress flag or
emitting a chunk through the state's `event_emitter`. -/
inductive StateOp where
  | set_in_progress (flag : Bool)
  | emit (e : Event)
deriving DecidableEq, Repr

/-- The data of a `ResearchState` (state.py, not among the sources): the run's
message id and query, per spec §3. Operations performed on it are recorded as
`StateOp` logs. -/
structure ResearchState where
  message_id : String
  query : String
deriving DecidableEq, Repr

/-- A message of the LangGraph message chain, as consumed by `research_node`
(only `.content` is read, research.py line 32). -/
structure ChainMessage where
  content : String
deriving DecidableEq, Repr

/-- The opaque collaborators of `research_node`: `web_search(query, state)`
returns search results (kept opaque as a string) plus the operations it
performed on the state it was given; `create_detailed_report(results, state)`
likewise returns the report text plus its state operations. -/
structure WorkflowFns where
  web_search : String → Option ResearchState → String × List StateOp
  create_detailed_report : String → Option ResearchState → String × List StateOp

/-- `research_node(messages, state)` (research.py lines 13-45): extract the
query from the last message (`messages[-1]`, an IndexError — `none` — on an
empty chain); if a state was given, call `state.set_in_progress(True)`; run
the web search, then the report generation; return the report wrapped in a
one-element `[AIMessage(content=report)]` list. The returned pair also
carries the ordered log of all operations performed on the state. -/
def research_node (F : WorkflowFns) (messages : List ChainMessage)
    (state : Option ResearchState) : Option (List AIMessage × List StateOp) :=
  match messages.getLast? with
  | none => none
  | some last =>
    let query := last.content
    let ops0 : List StateOp :=
      match state with
      | some _ => [StateOp.set_in_progress true]
      | none => []
    let ws := F.web_search query state
    let rep := F.create_detailed_report ws.1 state
    some ([⟨rep.1⟩], ops0 ++ ws.2 ++ rep.2)

example :
    (event_generator ⟨"t", "r", [⟨"user", "q"⟩]⟩ "m"
      (fun _ => ⟨[], Except.ok [⟨"rep"⟩]⟩)).1 =
    [Event.RunStarted "t" "r",
     Event.StateSnapshot "m" "q" false "",
     Event.TextMessageStart "m" "assistant",
     Event.TextMessageContent "m" "rep",
     Event.TextMessageEnd "m",
     Event.RunFinished "t" "r"] := by decide

example :
    sinkRun [SinkOp.drainRead, SinkOp.append (Event.TextMessageEnd "x"),
      SinkOp.drainClear] = ⟨[], []⟩ := by decide

example :
    research_node ⟨fun q _ => (q, []), fun r _ => (r ++ "!", [])⟩
      [⟨"hello"⟩] none = some ([⟨"hello!"⟩], []) := by decide

/-!
Theorems about the claims.
-/

/-- The last element of a list ending in four explicit chunks. -/
lemma getLast?_append_four {α : Type} (l : List α) (w x y z : α) :
    (l ++ [w, x, y, z]).getLast? = some z := by
  rw [List.getLast?_append_cons]
  rfl

/-- Claim C1: in every run in which the workflow call returns normally (and
yields a nonempty result list), the chunks yielded by the event generator are
exactly one `RunStarted`, then the sink's buffered chunks — the initial
snapshot emitted before the call and the snapshots emitted during the call,
in append order — then `TextMessageStart`, one `TextMessageContent`,
`TextMessageEnd`, and finally `RunFinished`; `RunStarted` is the first event,
`RunFinished` the last, and neither kind occurs anywhere else. -/
theorem event_generator_normal_run_ordering (input : RunAgentInput)
    (message_id : String) (wf : String → WorkflowRun) (last : Message)
    (hlast : input.messages.getLast? = some last)
    (res : List AIMessage) (hok : (wf last.content).result = Except.ok res)
    (item : AIMessage) (hitem : res.head? = some item) :
    event_generator input message_id wf =
      ([Event.RunStarted input.thread_id input.run_id] ++
       ([emit_snapshot message_id last.content false ""] ++
        (wf last.content).snapshots.map
          (fun s => Event.StateSnapshot message_id last.content s.1 s.2)) ++
       [Event.TextMessageStart message_id "assistant",
        Event.TextMessageContent message_id item.content,
        Event.TextMessageEnd message_id,
        Event.RunFinished input.thread_id input.run_id], none) ∧
    (event_generator input message_id wf).1.head? =
      some (Event.RunStarted input.thread_id input.run_id) ∧
    (event_generator input message_id wf).1.getLast? =
      some (Event.RunFinished input.thread_id input.run_id) ∧
    (event_generator input message_id wf).1.countP Event.isRunStarted = 1 ∧
    (event_generator input message_id wf).1.countP Event.isRunFinished = 1 := by
  have heq : event_generator input message_id wf =
      ([Event.RunStarted input.thread_id input.run_id] ++
       ([emit_snapshot message_id last.content false ""] ++
        (wf last.content).snapshots.map
          (fun s => Event.StateSnapshot message_id last.content s.1 s.2)) ++
       [Event.TextMessageStart message_id "assistant",
        Event.TextMessageContent message_id item.content,
        Event.TextMessageEnd message_id,
        Event.RunFinished input.thread_id input.run_id], none) := by
    simp [event_generator, hlast, event_generator_go, hok, hitem]
  refine ⟨heq, ?_, ?_, ?_, ?_⟩
  · simp [heq]
  · rw [heq]
    exact getLast?_append_four _ _ _ _ _
  · simp [heq, emit_snapshot, List.countP_append, List.countP_map,
      List.countP_cons, Function.comp, Event.isRunStarted]
  · simp [heq, emit_snapshot, List.countP_append, List.countP_map,
      List.countP_cons, Function.comp, Event.isRunFinished]

/-- Witness for C1 at a concrete run: one workflow snapshot, result
`[AIMessage "report text"]`. -/
theorem event_generator_normal_run_ordering_witness :
    event_generator ⟨"t1", "r1", [⟨"user", "q1"⟩]⟩ "m1"
      (fun _ => ⟨[(true, "fields1")], Except.ok [⟨"report text"⟩]⟩) =
      ([Event.RunStarted "t1" "r1"] ++
       ([emit_snapshot "m1" "q1" false ""] ++
        [(true, "fields1")].map
          (fun s => Event.StateSnapshot "m1" "q1" s.1 s.2)) ++
       [Event.TextMessageStart "m1" "assistant",
        Event.TextMessageContent "m1" "report text",
        Event.TextMessageEnd "m1",
        Event.RunFinished "t1" "r1"], none) ∧
    (event_generator ⟨"t1", "r1", [⟨"user", "q1"⟩]⟩ "m1"
      (fun _ => ⟨[(true, "fields1")], Except.ok [⟨"report text"⟩]⟩)).1.head? =
      some (Event.RunStarted "t1" "r1") ∧
    (event_generator ⟨"t1", "r1", [⟨"user", "q1"⟩]⟩ "m1"
      (fun _ => ⟨[(true, "fields1")], Except.ok [⟨"report text"⟩]⟩)).1.getLast? =
      some (Event.RunFinished "t1" "r1") ∧
    (event_generator ⟨"t1", "r1", [⟨"user", "q1"⟩]⟩ "m1"
      (fun _ => ⟨[(true, "fields1")], Except.ok [⟨"report text"⟩]⟩)).1.countP
      Event.isRunStarted = 1 ∧
    (event_generator ⟨"t1", "r1", [⟨"user", "q1"⟩]⟩ "m1"
      (fun _ => ⟨[(true, "fields1")], Except.ok [⟨"report text"⟩]⟩)).1.countP
      Event.isRunFinished = 1 :=
  event_generator_normal_run_ordering ⟨"t1", "r1", [⟨"user", "q1"⟩]⟩ "m1"
    (fun _ => ⟨[(true, "fields1")], Except.ok [⟨"report text"⟩]⟩)
    ⟨"user", "q1"⟩ rfl [⟨"report text"⟩] rfl ⟨"report text"⟩ rfl

/-- Claim C2 fails on the code: for the input messages
`[{role: "user", content: "climate change impacts"}]` and a workflow that
returns `"Climate change causes rising sea levels..."` while emitting
nothing, the stream still contains one snapshot chunk — the orchestrator
itself calls `emit_snapshot` (main.py line 81) and drains it before invoking
the workflow — so the output is not the claimed five-event sequence. -/
theorem scenario_snapshot_present_counterexample :
    (event_generator ⟨"t2", "r2", [⟨"user", "climate change impacts"⟩]⟩ "m2"
      (fun _ => ⟨[], Except.ok [⟨"Climate change causes rising sea levels..."⟩]⟩)).1.countP
      Event.isStateSnapshot = 1 ∧
    (event_generator ⟨"t2", "r2", [⟨"user", "climate change impacts"⟩]⟩ "m2"
      (fun _ => ⟨[], Except.ok [⟨"Climate change causes rising sea levels..."⟩]⟩)).1 ≠
      [Event.RunStarted "t2" "r2",
       Event.TextMessageStart "m2" "assistant",
       Event.TextMessageContent "m2" "Climate change causes rising sea levels...",
       Event.TextMessageEnd "m2",
       Event.RunFinished "t2" "r2"] := by
  decide

/-- Claim C2 as amended: in the same scenario the output event sequence is
exactly `RunStarted`, the initial state snapshot emitted by the orchestrator,
`TextMessageStart(role=assistant)`,
`TextMessageContent(delta="Climate change causes rising sea levels...")`,
`TextMessageEnd`, `RunFinished` — no further snapshot appears, since the
workflow emits none of its own. -/
theorem scenario_with_initial_snapshot :
    event_generator ⟨"t2", "r2", [⟨"user", "climate change impacts"⟩]⟩ "m2"
      (fun _ => ⟨[], Except.ok [⟨"Climate change causes rising sea levels..."⟩]⟩) =
      ([Event.RunStarted "t2" "r2",
        Event.StateSnapshot "m2" "climate change impacts" false "",
        Event.TextMessageStart "m2" "assistant",
        Event.TextMessageContent "m2" "Climate change causes rising sea levels...",
        Event.TextMessageEnd "m2",
        Event.RunFinished "t2" "r2"], none) := by
  decide

/-- Claim C3 fails on the code: the workflow call is not wrapped in any
exception handler, so when it raises the generator terminates with the
exception after having yielded only `RunStarted` and the initial snapshot —
the stream ends without `RunFinished`. -/
theorem workflow_error_drops_run_finished_counterexample :
    (event_generator ⟨"t3", "r3", [⟨"user", "q3"⟩]⟩ "m3"
      (fun _ => ⟨[(true, "wip")], Except.error "search failed"⟩)).1.countP
      Event.isRunFinished = 0 ∧
    (event_generator ⟨"t3", "r3", [⟨"user", "q3"⟩]⟩ "m3"
      (fun _ => ⟨[(true, "wip")], Except.error "search failed"⟩)).1.getLast? ≠
      some (Event.RunFinished "t3" "r3") ∧
    (event_generator ⟨"t3", "r3", [⟨"user", "q3"⟩]⟩ "m3"
      (fun _ => ⟨[(true, "wip")], Except.error "search failed"⟩)).2 =
      some (GenError.workflowRaised "search failed") := by
  decide

/-- Claim C3 as amended: when the workflow call raises, the exception escapes
the generator — the stream ends after `RunStarted` and the initial snapshot,
no `RunFinished` (and no text message event) is ever emitted, and the error
propagates. -/
theorem workflow_error_stream_truncated (input : RunAgentInput)
    (message_id : String) (wf : String → WorkflowRun) (last : Message)
    (hlast : input.messages.getLast? = some last)
    (e : String) (herr : (wf last.content).result = Except.error e) :
    event_generator input message_id wf =
      ([Event.RunStarted input.thread_id input.run_id,
        emit_snapshot message_id last.content false ""],
       some (GenError.workflowRaised e)) ∧
    (event_generator input message_id wf).1.countP Event.isRunFinished = 0 := by
  have heq : event_generator input message_id wf =
      ([Event.RunStarted input.thread_id input.run_id,
        emit_snapshot message_id last.content false ""],
       some (GenError.workflowRaised e)) := by
    simp [event_generator, hlast, event_generator_go, herr]
  exact ⟨heq, by simp [heq, emit_snapshot, List.countP_cons, Event.isRunFinished]⟩

/-- Witness for the amended C3 at a concrete erroring run. -/
theorem workflow_error_stream_truncated_witness :
    event_generator ⟨"t3w", "r3w", [⟨"user", "q3w"⟩]⟩ "m3w"
      (fun _ => ⟨[], Except.error "timeout"⟩) =
      ([Event.RunStarted "t3w" "r3w",
        emit_snapshot "m3w" "q3w" false ""],
       some (GenError.workflowRaised "timeout")) ∧
    (event_generator ⟨"t3w", "r3w", [⟨"user", "q3w"⟩]⟩ "m3w"
      (fun _ => ⟨[], Except.error "timeout"⟩)).1.countP Event.isRunFinished = 0 :=
  workflow_error_stream_truncated ⟨"t3w", "r3w", [⟨"user", "q3w"⟩]⟩ "m3w"
    (fun _ => ⟨[], Except.error "timeout"⟩) ⟨"user", "q3w"⟩ rfl "timeout" rfl

/-- Claim C4 fails on the code as stated for every run: in a run whose
workflow call raises, the stream ends before any text message event, so it
contains zero `TextMessageStart` and zero `TextMessageEnd` for the run's
message id — not exactly one of each. -/
theorem error_run_has_no_text_message_start :
    (event_generator ⟨"t4", "r4", [⟨"user", "q4"⟩]⟩ "m4"
      (fun _ => ⟨[], Except.error "boom"⟩)).1.countP
      (Event.isTMStartOf "m4") = 0 ∧
    (event_generator ⟨"t4", "r4", [⟨"user", "q4"⟩]⟩ "m4"
      (fun _ => ⟨[], Except.error "boom"⟩)).1.countP
      (Event.isTMEndOf "m4") = 0 := by
  decide

/-- Claim C4 as amended: in every run in which the workflow call returns
normally with a nonempty result list, the stream contains exactly one
`TextMessageStart` and exactly one `TextMessageEnd` carrying the run's
message id; the stream splits around them so that every event strictly
between the `Start` and the `End` is a `TextMessageContent` with that same
message id, and no `TextMessageContent` with that id occurs before the
`Start` or after the `End`. -/
theorem text_message_bracketing (input : RunAgentInput)
    (message_id : String) (wf : String → WorkflowRun) (last : Message)
    (hlast : input.messages.getLast? = some last)
    (res : List AIMessage) (hok : (wf last.content).result = Except.ok res)
    (item : AIMessage) (hitem : res.head? = some item) :
    (event_generator input message_id wf).1.countP
      (Event.isTMStartOf message_id) = 1 ∧
    (event_generator input message_id wf).1.countP
      (Event.isTMEndOf message_id) = 1 ∧
    ∃ pre mids post,
      (event_generator input message_id wf).1 =
        pre ++ [Event.TextMessageStart message_id "assistant"] ++ mids ++
          [Event.TextMessageEnd message_id] ++ post ∧
      (∀ e ∈ mids, ∃ d, e = Event.TextMessageContent message_id d) ∧
      pre.countP (Event.isTMContentOf message_id) = 0 ∧
      post.countP (Event.isTMContentOf message_id) = 0 := by
  have heq : event_generator input message_id wf =
      ([Event.RunStarted input.thread_id input.run_id] ++
       ([emit_snapshot message_id last.content false ""] ++
        (wf last.content).snapshots.map
          (fun s => Event.StateSnapshot message_id last.content s.1 s.2)) ++
       [Event.TextMessageStart message_id "assistant",
        Event.TextMessageContent message_id item.content,
        Event.TextMessageEnd message_id,
        Event.RunFinished input.thread_id input.run_id], none) := by
    simp [event_generator, hlast, event_generator_go, hok, hitem]
  refine ⟨?_, ?_,
    [Event.RunStarted input.thread_id input.run_id] ++
      ([emit_snapshot message_id last.content false ""] ++
       (wf last.content).snapshots.map
         (fun s => Event.StateSnapshot message_id last.content s.1 s.2)),
    [Event.TextMessageContent message_id item.content],
    [Event.RunFinished input.thread_id input.run_id], ?_, ?_, ?_, ?_⟩
  · simp [heq, emit_snapshot, List.countP_append, List.countP_map,
      List.countP_cons, Function.comp, Event.isTMStartOf]
  · simp [heq, emit_snapshot, List.countP_append, List.countP_map,
      List.countP_cons, Function.comp, Event.isTMEndOf]
  · simp [heq]
  · intro e he
    simp at he
    exact ⟨item.content, he⟩
  · simp [emit_snapshot, List.countP_append, List.countP_map,
      List.countP_cons, Function.comp, Event.isTMContentOf]
  · simp [List.countP_cons, Event.isTMContentOf]

/-- Witness for the amended C4 at a concrete run with one workflow
snapshot. -/
theorem text_message_bracketing_witness :
    (event_generator ⟨"t4w", "r4w", [⟨"user", "q4w"⟩]⟩ "m4w"
      (fun _ => ⟨[(true, "f4")], Except.ok [⟨"the report"⟩]⟩)).1.countP
      (Event.isTMStartOf "m4w") = 1 ∧
    (event_generator ⟨"t4w", "r4w", [⟨"user", "q4w"⟩]⟩ "m4w"
      (fun _ => ⟨[(true, "f4")], Except.ok [⟨"the report"⟩]⟩)).1.countP
      (Event.isTMEndOf "m4w") = 1 ∧
    ∃ pre mids post,
      (event_generator ⟨"t4w", "r4w", [⟨"user", "q4w"⟩]⟩ "m4w"
        (fun _ => ⟨[(true, "f4")], Except.ok [⟨"the report"⟩]⟩)).1 =
        pre ++ [Event.TextMessageStart "m4w" "assistant"] ++ mids ++
          [Event.TextMessageEnd "m4w"] ++ post ∧
      (∀ e ∈ mids, ∃ d, e = Event.TextMessageContent "m4w" d) ∧
      pre.countP (Event.isTMContentOf "m4w") = 0 ∧
      post.countP (Event.isTMContentOf "m4w") = 0 :=
  text_message_bracketing ⟨"t4w", "r4w", [⟨"user", "q4w"⟩]⟩ "m4w"
    (fun _ => ⟨[(true, "f4")], Except.ok [⟨"the report"⟩]⟩)
    ⟨"user", "q4w"⟩ rfl [⟨"the report"⟩] rfl ⟨"the report"⟩ rfl

/-- Claim C5: in every run that completes normally, exactly one
`TextMessageContent` event is emitted, and the content event carrying as its
delta the content of the first element of the workflow's result list is on
the stream — so the single delta is the full final text `result[0].content`. -/
theorem single_content_event_carries_report (input : RunAgentInput)
    (message_id : String) (wf : String → WorkflowRun) (last : Message)
    (hlast : input.messages.getLast? = some last)
    (res : List AIMessage) (hok : (wf last.content).result = Except.ok res)
    (item : AIMessage) (hitem : res.head? = some item) :
    (event_generator input message_id wf).1.countP Event.isTMContent = 1 ∧
    Event.TextMessageContent message_id item.content ∈
      (event_generator input message_id wf).1 := by
  have heq : event_generator input message_id wf =
      ([Event.RunStarted input.thread_id input.run_id] ++
       ([emit_snapshot message_id last.content false ""] ++
        (wf last.content).snapshots.map
          (fun s => Event.StateSnapshot message_id last.content s.1 s.2)) ++
       [Event.TextMessageStart message_id "assistant",
        Event.TextMessageContent message_id item.content,
        Event.TextMessageEnd message_id,
        Event.RunFinished input.thread_id input.run_id], none) := by
    simp [event_generator, hlast, event_generator_go, hok, hitem]
  constructor
  · simp [heq, emit_snapshot, List.countP_append, List.countP_map,
      List.countP_cons, Function.comp, Event.isTMContent]
  · simp [heq]

/-- Witness for C5 at a concrete run. -/
theorem single_content_event_carries_report_witness :
    (event_generator ⟨"t5", "r5", [⟨"user", "q5"⟩]⟩ "m5"
      (fun _ => ⟨[], Except.ok [⟨"full final text"⟩, ⟨"ignored"⟩]⟩)).1.countP
      Event.isTMContent = 1 ∧
    Event.TextMessageContent "m5" "full final text" ∈
      (event_generator ⟨"t5", "r5", [⟨"user", "q5"⟩]⟩ "m5"
        (fun _ => ⟨[], Except.ok [⟨"full final text"⟩, ⟨"ignored"⟩]⟩)).1 :=
  single_content_event_carries_report ⟨"t5", "r5", [⟨"user", "q5"⟩]⟩ "m5"
    (fun _ => ⟨[], Except.ok [⟨"full final text"⟩, ⟨"ignored"⟩]⟩)
    ⟨"user", "q5"⟩ rfl [⟨"full final text"⟩, ⟨"ignored"⟩] rfl
    ⟨"full final text"⟩ rfl

/-- Claim C6: in every run with a nonempty message list, the query used for
the whole run is the content of the last message of the request — the
generator's behaviour is the generator body evaluated at that query with the
workflow invoked on that query, and the run state's snapshot chunk (the
second streamed event) carries that query. -/
theorem query_is_last_message_content (input : RunAgentInput)
    (message_id : String) (wf : String → WorkflowRun) (last : Message)
    (hlast : input.messages.getLast? = some last) :
    event_generator input message_id wf =
      event_generator_go input message_id last.content (wf last.content) ∧
    (event_generator input message_id wf).1[1]? =
      some (Event.StateSnapshot message_id last.content false "") := by
  have heq : event_generator input message_id wf =
      event_generator_go input message_id last.content (wf last.content) := by
    simp [event_generator, hlast]
  refine ⟨heq, ?_⟩
  rw [heq]
  cases hres : (wf last.content).result with
  | error e => simp [event_generator_go, hres, emit_snapshot]
  | ok res =>
    cases hitem : res.head? with
    | none => simp [event_generator_go, hres, hitem, emit_snapshot]
    | some item => simp [event_generator_go, hres, hitem, emit_snapshot]

/-- Witness for C6: the last of two messages supplies the query. -/
theorem query_is_last_message_content_witness :
    event_generator ⟨"t6", "r6", [⟨"user", "first"⟩, ⟨"user", "second"⟩]⟩ "m6"
      (fun q => ⟨[], Except.ok [⟨q⟩]⟩) =
      event_generator_go ⟨"t6", "r6", [⟨"user", "first"⟩, ⟨"user", "second"⟩]⟩
        "m6" "second" ⟨[], Except.ok [⟨"second"⟩]⟩ ∧
    (event_generator ⟨"t6", "r6", [⟨"user", "first"⟩, ⟨"user", "second"⟩]⟩ "m6"
      (fun q => ⟨[], Except.ok [⟨q⟩]⟩)).1[1]? =
      some (Event.StateSnapshot "m6" "second" false "") :=
  query_is_last_message_content
    ⟨"t6", "r6", [⟨"user", "first"⟩, ⟨"user", "second"⟩]⟩ "m6"
    (fun q => ⟨[], Except.ok [⟨q⟩]⟩) ⟨"user", "second"⟩ rfl

/-- Claim C7: draining the event sink is exhaustive, order-preserving and
clearing — after any previous drain, appending `a`, `b`, `c` and draining
yields exactly `[a, b, c]` and leaves the buffer empty, so a further drain
with no intervening appends yields the empty sequence. -/
theorem eventSink_drain_exhaustive_clearing (s : EventSink) (a b c : Event) :
    ((((s.drainAll.2).append a).append b).append c).drainAll.1 = [a, b, c] ∧
    ((((s.drainAll.2).append a).append b).append c).drainAll.2.buffer = [] ∧
    ((((s.drainAll.2).append a).append b).append c).drainAll.2.drainAll.1 = [] := by
  refine ⟨?_, rfl, rfl⟩
  simp [EventSink.drainAll, EventSink.append]

/-- Claim C8 fails on the code: the drain is a read phase followed by a
separate clear phase, so a chunk appended between the two phases is wiped by
the clear without ever having been read — after the interleaved schedule and
one more (complete) drain, the chunk is in neither the flushed output nor the
buffer, hence it is returned by no drain at all, not exactly once. -/
theorem interleaved_append_lost :
    Event.StateSnapshot "m8" "q8" true "lost" ∉
      (sinkRun [SinkOp.drainRead,
        SinkOp.append (Event.StateSnapshot "m8" "q8" true "lost"),
        SinkOp.drainClear, SinkOp.drainRead, SinkOp.drainClear]).flushed ∧
    (sinkRun [SinkOp.drainRead,
      SinkOp.append (Event.StateSnapshot "m8" "q8" true "lost"),
      SinkOp.drainClear, SinkOp.drainRead, SinkOp.drainClear]).flushed = [] ∧
    (sinkRun [SinkOp.drainRead,
      SinkOp.append (Event.StateSnapshot "m8" "q8" true "lost"),
      SinkOp.drainClear, SinkOp.drainRead, SinkOp.drainClear]).buffer = [] := by
  decide

/-- Invariant of the atomic-drain sink: after any schedule, the flushed
output followed by the remaining buffer is exactly the sequence of appended
chunks, whatever the initial state contributed. -/
lemma atomic_foldl_flushed_buffer (ops : List AtomicOp) (s : SinkState) :
    (ops.foldl atomicStep s).flushed ++ (ops.foldl atomicStep s).buffer =
      s.flushed ++ s.buffer ++ appendsOf ops := by
  induction ops generalizing s with
  | nil => simp [appendsOf]
  | cons op ops ih =>
    cases op with
    | append c =>
      rw [List.foldl_cons, ih]
      simp [atomicStep, appendsOf]
    | drain =>
      rw [List.foldl_cons, ih]
      simp [atomicStep, appendsOf]

/-- Claim C8 as amended: when every drain is an atomic snapshot-and-clear —
no append interleaves between a drain's read and its clear — then after any
schedule of appends and drains the flushed chunks followed by the buffered
chunks are exactly the appended chunks in append order: every appended chunk
is flushed by exactly one drain or still awaits the next drain, never lost
and never duplicated. -/
theorem atomic_drain_no_loss (ops : List AtomicOp) :
    (atomicRun ops).flushed ++ (atomicRun ops).buffer = appendsOf ops := by
  have h := atomic_foldl_flushed_buffer ops ⟨[], []⟩
  simpa [atomicRun] using h

/-- Claim C9: on a request whose message list is empty, indexing the most
recent message raises before the first yield, so the generator streams no
event at all — not even `RunStarted`. -/
theorem empty_messages_no_events (input : RunAgentInput)
    (message_id : String) (wf : String → WorkflowRun)
    (h : input.messages = []) :
    event_generator input message_id wf =
      ([], some GenError.indexErrorMessages) := by
  simp [event_generator, h]

/-- Witness for C9 at a concrete empty request. -/
theorem empty_messages_no_events_witness :
    event_generator ⟨"t9", "r9", []⟩ "m9"
      (fun _ => ⟨[], Except.ok [⟨"unused"⟩]⟩) =
      ([], some GenError.indexErrorMessages) :=
  empty_messages_no_events ⟨"t9", "r9", []⟩ "m9"
    (fun _ => ⟨[], Except.ok [⟨"unused"⟩]⟩) rfl

/-- Claim C10: on a nonempty message chain with `state = None`,
`research_node` performs no state operation — the `if state:` guard skips
`set_in_progress`, and the collaborators, holding no state reference, emit
nothing through it — and returns a one-element list containing an
`AIMessage` whose content is the generated report: the detailed report built
from the web search results for the query. -/
theorem research_node_stateless_run (F : WorkflowFns)
    (messages : List ChainMessage) (last : ChainMessage)
    (hlast : messages.getLast? = some last)
    (hws : ∀ q, (F.web_search q none).2 = [])
    (hrep : ∀ r, (F.create_detailed_report r none).2 = []) :
    research_node F messages none =
      some ([⟨(F.create_detailed_report
        (F.web_search last.content none).1 none).1⟩], []) := by
  simp [research_node, hlast, hws, hrep]

/-- Witness for C10 at a concrete chain and concrete collaborators. -/
theorem research_node_stateless_run_witness :
    research_node
      ⟨fun q _ => (q, []), fun r _ => (r, [])⟩
      [⟨"solar power"⟩, ⟨"wind energy"⟩] none =
      some ([⟨"wind energy"⟩], []) :=
  research_node_stateless_run
    ⟨fun q _ => (q, []), fun r _ => (r, [])⟩
    [⟨"solar power"⟩, ⟨"wind energy"⟩] ⟨"wind energy"⟩ rfl
    (fun _ => rfl) (fun _ => rfl)
